import Mathlib

/-!
Shallow embedding of src/week1/claude_solution.py, the website summarizer
script.  Python dictionaries for chat messages become a Message structure,
exceptions become the Except monad with a PyError error type, and the two
external collaborators (the scraper fetch_website_contents and the OpenAI
client call chat.completions.create) are passed in as function parameters,
since their behavior lives outside this repository.  The main entry point
becomes a pure function from the argument vector, the client-construction
outcome and the two collaborators to a RunResult recording the exit code,
the attempted URLs and the per-URL output events in order.
-/

/-- Errors a call can raise: a scraper failure, a transport failure of the
inference call, the IndexError from indexing an empty choices list, and a
failure while constructing the client. -/
inductive PyError where
  | fetchError (msg : String)
  | transportError (msg : String)
  | indexError
  | ctorError (msg : String)
  deriving DecidableEq, Repr

/-- A chat message record, role tag plus text content. -/
structure Message where
  role : String
  content : String
  deriving DecidableEq, Repr

/-- The message carried by one choice of a chat-completion response. -/
structure ChoiceMessage where
  content : String
  deriving DecidableEq, Repr

/-- One choice of a chat-completion response. -/
structure Choice where
  message : ChoiceMessage
  deriving DecidableEq, Repr

/-- A chat-completion response: a list of choices. -/
structure ChatResponse where
  choices : List Choice
  deriving DecidableEq, Repr

/-- The configuration stored in the OpenAI client object: base URL and the
placeholder API key.  Construction performs no network I/O. -/
structure ClientConfig where
  base_url : String
  api_key : String
  deriving DecidableEq, Repr

/-- The scraper collaborator: fetch_website_contents, which may raise. -/
abbrev Fetcher := String → Except PyError String

/-- The inference collaborator: client.chat.completions.create, taking the
model name and the messages, which may raise. -/
abbrev Completer := String → List Message → Except PyError ChatResponse

/-- Configuration constant OLLAMA_BASE_URL from the script. -/
def OLLAMA_BASE_URL : String := "http://localhost:11434/v1"

/-- Configuration constant MODEL from the script. -/
def MODEL : String := "llama3.2"

/-- Configuration constant SYSTEM_PROMPT from the script, a triple-quoted
Python string with its leading and trailing newlines. -/
def SYSTEM_PROMPT : String :=
  "\nYou are a snarky assistant that analyzes the contents of a website,\nand provides a short, snarky, humorous summary, ignoring text that might be navigation related.\nRespond in markdown. Do not wrap the markdown in a code block - respond just with the markdown.\n"

/-- Configuration constant USER_PROMPT_PREFIX from the script, ending in a
newline followed by a blank line. -/
def USER_PROMPT_PREFIX : String :=
  "\nHere are the contents of a website.\nProvide a short summary of this website.\nIf it includes news or announcements, then summarize these too.\n\n"

/-- create_ollama_client: builds the client configuration record; in the
script this is OpenAI with base_url OLLAMA_BASE_URL and api_key "ollama". -/
def create_ollama_client : ClientConfig :=
  ⟨OLLAMA_BASE_URL, "ollama"⟩

/-- create_messages: the two-element message list sent to the API, a system
message holding SYSTEM_PROMPT and a user message holding the prompt prefix
concatenated with the website content. -/
def create_messages (website_content : String) : List Message :=
  [⟨"system", SYSTEM_PROMPT⟩, ⟨"user", USER_PROMPT_PREFIX ++ website_content⟩]

/-- summarize_website: fetches the page, builds the messages, performs the
chat-completion call and returns response.choices[0].message.content; the
unguarded index raises IndexError on an empty choices list, and scraper or
transport failures propagate to the caller. -/
def summarize_website (url : String) (fetch : Fetcher) (complete : Completer) :
    Except PyError String :=
  match fetch url with
  | .error e => .error e
  | .ok website_content =>
    match complete MODEL (create_messages website_content) with
    | .error e => .error e
    | .ok response =>
      match response.choices with
      | [] => .error .indexError
      | c :: _ => .ok c.message.content

/-- The built-in default URL list of main. -/
def default_urls : List String :=
  ["https://edwarddonner.com", "https://anthropic.com", "https://cnn.com"]

/-- Argument resolution of main on the full argument vector sys.argv (the
program name is element 0): when len(sys.argv) > 1 the list is the single
URL sys.argv[1], otherwise the default list. -/
def resolve_urls (argv : List String) : List String :=
  if h : 1 < argv.length then [argv.get ⟨1, h⟩] else default_urls

/-- One user-visible per-URL result of the main loop: either the printed
summary or the printed per-URL error. -/
inductive OutputEvent where
  | summaryOutput (url : String) (summary : String)
  | urlError (url : String) (e : PyError)
  deriving DecidableEq, Repr

/-- Whether an output event reports a per-URL failure. -/
def OutputEvent.isErr : OutputEvent → Bool
  | .summaryOutput _ _ => false
  | .urlError _ _ => true

/-- The URL an output event concerns. -/
def OutputEvent.url : OutputEvent → String
  | .summaryOutput u _ => u
  | .urlError u _ => u

/-- One iteration of the main loop: try summarize_website and print either
the summary or the error together with the URL. -/
def process_url (fetch : Fetcher) (complete : Completer) (url : String) :
    OutputEvent :=
  match summarize_website url fetch complete with
  | .ok summary => .summaryOutput url summary
  | .error e => .urlError url e

/-- The main loop over the resolved URL list, in order. -/
def run_loop (fetch : Fetcher) (complete : Completer) (urls : List String) :
    List OutputEvent :=
  urls.map (process_url fetch complete)

/-- The observable outcome of one run of main: the process exit code, the
URLs whose summarization was attempted, the per-URL output events in the
order they were printed, and whether the remediation message block for a
client-construction failure was printed. -/
structure RunResult where
  exitCode : Nat
  attempted : List String
  events : List OutputEvent
  remediationPrinted : Bool
  deriving DecidableEq, Repr

/-- main: resolves the URL list from sys.argv, constructs the client (the
outcome of that construction is the ctor parameter; on failure main prints
the remediation block and exits with code 1 before touching any URL), then
runs the loop over every URL and exits with code 0. -/
def main_run (argv : List String) (ctor : Except PyError ClientConfig)
    (fetch : Fetcher) (complete : Completer) : RunResult :=
  let urls := resolve_urls argv
  match ctor with
  | .error _ => ⟨1, [], [], true⟩
  | .ok _ => ⟨0, urls, run_loop fetch complete urls, false⟩

/-- Extracts the first choice message content of a response, raising the
IndexError on an empty choices list. -/
def first_choice_content (response : ChatResponse) : Except PyError String :=
  match response.choices with
  | [] => .error .indexError
  | c :: _ => .ok c.message.content

/-- The spec's description of the Summarizer, written as the words of the
spec say it: the monadic composition of ContentFetcher.fetch, then
PromptBuilder.build on the fetched content, then the chat-completion call
on those messages, then extraction of the first choice message content. -/
def summarize_via_composition (url : String) (fetch : Fetcher)
    (complete : Completer) : Except PyError String :=
  (fetch url).bind fun content =>
    (complete MODEL (create_messages content)).bind fun response =>
      first_choice_content response

/-- Configuration record used to state that the script's globals are the
one constant configuration every call observes. -/
structure Config where
  baseUrl : String
  modelName : String
  systemPrompt : String
  userLead : String
  deriving DecidableEq, Repr

/-- The configuration the script sets at startup. -/
def initConfig : Config :=
  ⟨OLLAMA_BASE_URL, MODEL, SYSTEM_PROMPT, USER_PROMPT_PREFIX⟩

/-- create_messages with the configuration it reads made explicit. -/
def create_messages_cfg (cfg : Config) (website_content : String) :
    List Message :=
  [⟨"system", cfg.systemPrompt⟩, ⟨"user", cfg.userLead ++ website_content⟩]

/-- create_ollama_client with the configuration it reads made explicit. -/
def create_ollama_client_cfg (cfg : Config) : ClientConfig :=
  ⟨cfg.baseUrl, "ollama"⟩

/-- summarize_website with the configuration it reads made explicit. -/
def summarize_website_cfg (cfg : Config) (url : String) (fetch : Fetcher)
    (complete : Completer) : Except PyError String :=
  match fetch url with
  | .error e => .error e
  | .ok website_content =>
    match complete cfg.modelName (create_messages_cfg cfg website_content) with
    | .error e => .error e
    | .ok response =>
      match response.choices with
      | [] => .error .indexError
      | c :: _ => .ok c.message.content

/-- main with the configuration it reads made explicit. -/
def main_run_cfg (cfg : Config) (argv : List String)
    (ctor : Except PyError ClientConfig) (fetch : Fetcher)
    (complete : Completer) : RunResult :=
  let urls := resolve_urls argv
  match ctor with
  | .error _ => ⟨1, [], [], true⟩
  | .ok _ =>
    ⟨0, urls,
      urls.map (fun url =>
        match summarize_website_cfg cfg url fetch complete with
        | .ok summary => .summaryOutput url summary
        | .error e => .urlError url e), false⟩

/-- Test fetcher: fails on the second default URL, succeeds elsewhere. -/
def wFetch : Fetcher := fun u =>
  if u = "https://anthropic.com" then Except.error (PyError.fetchError "boom")
  else Except.ok "Hello world"

/-- Test completion call: one choice whose message content is fixed. -/
def wComplete : Completer := fun _ _ =>
  Except.ok ⟨[⟨⟨"# Summary"⟩⟩]⟩

/-- Test completion call returning a response with zero choices. -/
def wcEmpty : Completer := fun _ _ => Except.ok ⟨[]⟩

theorem process_url_urlEq (fetch : Fetcher) (complete : Completer)
    (u : String) : OutputEvent.url (process_url fetch complete u) = u := by
  unfold process_url
  cases summarize_website u fetch complete <;> rfl

theorem countP_eq_one_of_pointwise {α : Type} (p : α → Bool) :
    ∀ (l : List α) (K : Nat), K < l.length →
    (∀ i (hi : i < l.length), p (l.get ⟨i, hi⟩) = decide (i = K)) →
    l.countP p = 1 := by
  intro l
  induction l with
  | nil => intro K hK _; exact absurd hK (by simp)
  | cons a t ih =>
    intro K hK hp
    cases K with
    | zero =>
      have ha : p a = true := by simpa using hp 0 (by simp)
      have ht : t.countP p = 0 := by
        rw [List.countP_eq_zero]
        intro x hx
        obtain ⟨⟨i, hi⟩, rfl⟩ := List.mem_iff_get.mp hx
        have h2 := hp (i + 1) (by simpa using Nat.succ_lt_succ hi)
        simpa using h2
      simp [List.countP_cons, ha, ht]
    | succ K =>
      have ha : p a = false := by simpa using hp 0 (by simp)
      have ht : t.countP p = 1 := by
        apply ih K (by simpa using Nat.lt_of_succ_lt_succ hK)
        intro i hi
        have h2 := hp (i + 1) (by simpa using Nat.succ_lt_succ hi)
        simpa using h2
      simp [List.countP_cons, ha, ht]

/-- C1: for every content string, including the empty one, create_messages
returns exactly two messages, the first with role system carrying the fixed
system instruction, the second with role user whose content is exactly the
fixed instructional lead-in concatenated with the input content, hence it
ends with the input content. -/
theorem C1_create_messages_shape (c : String) :
    create_messages c =
      [⟨"system", SYSTEM_PROMPT⟩, ⟨"user", USER_PROMPT_PREFIX ++ c⟩] ∧
    (create_messages c).length = 2 ∧
    ∃ p, Option.map Message.content (create_messages c).getLast? =
      some (p ++ c) :=
  ⟨rfl, rfl, ⟨USER_PROMPT_PREFIX, rfl⟩⟩

/-- C3: when client construction fails, main prints the remediation block,
exits with code 1, and attempts no URL — no fetch, no summarization, no
per-URL output event at all. -/
theorem C3_ctor_failure_fatal (argv : List String) (e : PyError)
    (fetch : Fetcher) (complete : Completer) :
    main_run argv (Except.error e) fetch complete = ⟨1, [], [], true⟩ :=
  rfl

/-- C4: with exactly one command-line argument the URL list is that single
URL and exactly one summarization is attempted, ignoring the default list;
with no argument the URL list is the built-in list of three defaults. -/
theorem C4_argument_resolution (prog a : String) (cc : ClientConfig)
    (fetch : Fetcher) (complete : Completer) :
    resolve_urls [prog, a] = [a] ∧
    resolve_urls [prog] = default_urls ∧
    default_urls.length = 3 ∧
    (main_run [prog, a] (Except.ok cc) fetch complete).attempted = [a] ∧
    (main_run [prog, a] (Except.ok cc) fetch complete).events.length = 1 :=
  ⟨rfl, rfl, rfl, rfl, rfl⟩

/-- C9: with two or more command-line arguments, main uses only the first
argument as the sole target URL and silently ignores the rest, with exit
code 0 and no error event forced by the extra arguments. -/
theorem C9_extra_arguments_ignored (prog a : String) (rest : List String)
    (cc : ClientConfig) (fetch : Fetcher) (complete : Completer) :
    resolve_urls (prog :: a :: rest) = [a] ∧
    (main_run (prog :: a :: rest) (Except.ok cc) fetch complete).attempted
      = [a] ∧
    (main_run (prog :: a :: rest) (Except.ok cc) fetch complete).exitCode
      = 0 ∧
    (main_run (prog :: a :: rest) (Except.ok cc) fetch complete).events
      = [process_url fetch complete a] := by
  have h : 1 < (prog :: a :: rest).length := by
    simp [Nat.succ_lt_succ]
  have hr : resolve_urls (prog :: a :: rest) = [a] := by
    simp [resolve_urls, dif_pos h]
  refine ⟨hr, ?_, ?_, ?_⟩ <;> simp [main_run, run_loop, hr]

/-- C5: summarize_website equals the composition fetch, then message
building, then the chat-completion call, returning the first choice message
content; a fetch failure or a transport failure propagates to the caller
unchanged, with no retry. -/
theorem C5_summarize_is_composition (url : String) (fetch : Fetcher)
    (complete : Completer) :
    summarize_website url fetch complete =
      summarize_via_composition url fetch complete ∧
    (∀ e, fetch url = Except.error e →
      summarize_website url fetch complete = Except.error e) ∧
    (∀ content e, fetch url = Except.ok content →
      complete MODEL (create_messages content) = Except.error e →
      summarize_website url fetch complete = Except.error e) ∧
    (∀ content response c cs, fetch url = Except.ok content →
      complete MODEL (create_messages content) = Except.ok response →
      response.choices = c :: cs →
      summarize_website url fetch complete =
        Except.ok c.message.content) := by
  refine ⟨?_, ?_, ?_, ?_⟩
  · rcases hf : fetch url with e | content
    · simp [summarize_website, summarize_via_composition, hf, Except.bind]
    · rcases hc : complete MODEL (create_messages content) with e | response
      · simp [summarize_website, summarize_via_composition,
          first_choice_content, hf, hc, Except.bind]
      · simp [summarize_website, summarize_via_composition,
          first_choice_content, hf, hc, Except.bind]
  · intro e hf
    simp [summarize_website, hf]
  · intro content e hf hc
    simp [summarize_website, hf, hc]
  · intro content response c cs hf hc hch
    simp [summarize_website, hf, hc, hch]

/-- Witness for C5 at concrete collaborators: the composition equation and
the success case, with the hypotheses discharged by evaluation. -/
theorem C5_summarize_is_composition_witness :
    summarize_website "https://example.com" wFetch wComplete =
      summarize_via_composition "https://example.com" wFetch wComplete ∧
    summarize_website "https://example.com" wFetch wComplete =
      Except.ok "# Summary" :=
  ⟨(C5_summarize_is_composition "https://example.com" wFetch wComplete).1,
    (C5_summarize_is_composition "https://example.com" wFetch
      wComplete).2.2.2 "Hello world" ⟨[⟨⟨"# Summary"⟩⟩]⟩ ⟨⟨"# Summary"⟩⟩ []
      rfl rfl rfl⟩

/-- C6: main processes the URLs one at a time in list order: there is one
output event per resolved URL, the event at each position concerns exactly
the URL at that position of the input list, and it is the result of the
single summarization of that URL. -/
theorem C6_sequential_in_order (argv : List String) (cc : ClientConfig)
    (fetch : Fetcher) (complete : Completer) :
    (main_run argv (Except.ok cc) fetch complete).events.length =
      (resolve_urls argv).length ∧
    (∀ i : Nat, Option.map OutputEvent.url
        (main_run argv (Except.ok cc) fetch complete).events[i]? =
      (resolve_urls argv)[i]?) ∧
    (∀ i : Nat, (main_run argv (Except.ok cc) fetch complete).events[i]? =
      Option.map (process_url fetch complete) (resolve_urls argv)[i]?) := by
  refine ⟨by simp [main_run, run_loop], ?_, ?_⟩
  · intro i
    simp only [main_run, run_loop, List.getElem?_map]
    cases (resolve_urls argv)[i]? with
    | none => rfl
    | some u => simp [process_url_urlEq]
  · intro i
    simp [main_run, run_loop, List.getElem?_map]

/-- C7: every operation of the script is the instance of its configuration-
parameterized version at the single constant configuration built at
startup, whose fields are the fixed global constants: no call mutates the
configuration and every call observes the same values. -/
theorem C7_config_constant :
    (∀ c, create_messages c = create_messages_cfg initConfig c) ∧
    create_ollama_client = create_ollama_client_cfg initConfig ∧
    (∀ url fetch complete, summarize_website url fetch complete =
      summarize_website_cfg initConfig url fetch complete) ∧
    (∀ argv ctor fetch complete, main_run argv ctor fetch complete =
      main_run_cfg initConfig argv ctor fetch complete) ∧
    initConfig = ⟨OLLAMA_BASE_URL, MODEL, SYSTEM_PROMPT, USER_PROMPT_PREFIX⟩ := by
  refine ⟨fun c => rfl, rfl, fun url fetch complete => ?_,
    fun argv ctor fetch complete => ?_, rfl⟩
  · unfold summarize_website summarize_website_cfg
    cases fetch url with
    | error e => rfl
    | ok content => rfl
  · cases ctor with
    | error e => rfl
    | ok cc =>
      simp only [main_run, main_run_cfg, run_loop]
      refine congrArg (fun ev => RunResult.mk 0 (resolve_urls argv) ev false) ?_
      refine List.map_congr_left fun u hu => ?_
      unfold process_url summarize_website summarize_website_cfg
      cases fetch u with
      | error e => rfl
      | ok content => rfl

/-- C8: create_messages is deterministic and total: equal inputs give equal
message lists, and every input yields a well-formed two-element list. -/
theorem C8_pure_function (a b : String) (h : a = b) :
    create_messages a = create_messages b ∧
    (create_messages a).length = 2 := by
  subst h
  exact ⟨rfl, rfl⟩

/-- Witness for C8 at a concrete input, equality hypothesis discharged. -/
theorem C8_pure_function_witness :
    create_messages "Hello world" = create_messages "Hello world" ∧
    (create_messages "Hello world").length = 2 :=
  C8_pure_function "Hello world" "Hello world" rfl

/-- C2: when the summarization of the Kth resolved URL fails and every
other one succeeds, main still attempts every URL, produces one output
event per URL, reports exactly one failure, that failure is at position K
and carries the Kth URL, and the exit code is 0. -/
theorem C2_per_url_failure_isolated (argv : List String) (cc : ClientConfig)
    (fetch : Fetcher) (complete : Completer) (K : Nat) (e : PyError)
    (hK : K < (resolve_urls argv).length)
    (hfail : summarize_website ((resolve_urls argv).get ⟨K, hK⟩) fetch
      complete = Except.error e)
    (hok : ∀ i (hi : i < (resolve_urls argv).length), i ≠ K →
      ∃ s, summarize_website ((resolve_urls argv).get ⟨i, hi⟩) fetch
        complete = Except.ok s) :
    (main_run argv (Except.ok cc) fetch complete).exitCode = 0 ∧
    (main_run argv (Except.ok cc) fetch complete).attempted =
      resolve_urls argv ∧
    (main_run argv (Except.ok cc) fetch complete).events.length =
      (resolve_urls argv).length ∧
    (main_run argv (Except.ok cc) fetch complete).events.countP
      OutputEvent.isErr = 1 ∧
    (main_run argv (Except.ok cc) fetch complete).events[K]? =
      some (OutputEvent.urlError ((resolve_urls argv).get ⟨K, hK⟩) e) := by
  have hm : (main_run argv (Except.ok cc) fetch complete).events =
      (resolve_urls argv).map (process_url fetch complete) := rfl
  have hfail2 : summarize_website (resolve_urls argv)[K] fetch complete =
      Except.error e := hfail
  refine ⟨rfl, rfl, by simp [hm], ?_, ?_⟩
  · rw [hm, List.countP_map]
    apply countP_eq_one_of_pointwise _ _ K hK
    intro i hi
    by_cases h : i = K
    · subst h
      simp [Function.comp, process_url, hfail2, OutputEvent.isErr]
    · obtain ⟨s, hs⟩ := hok i hi h
      have hs2 : summarize_website (resolve_urls argv)[i] fetch complete =
          Except.ok s := hs
      simp [Function.comp, process_url, hs2, OutputEvent.isErr, h]
  · rw [hm, List.getElem?_map, List.getElem?_eq_getElem hK]
    simp [process_url, hfail2]

/-- Witness for C2: the default three-URL list with the second fetch
failing; the hypotheses are discharged by evaluation. -/
theorem C2_per_url_failure_isolated_witness :
    (main_run ["prog"] (Except.ok create_ollama_client) wFetch
      wComplete).exitCode = 0 ∧
    (main_run ["prog"] (Except.ok create_ollama_client) wFetch
      wComplete).attempted = resolve_urls ["prog"] ∧
    (main_run ["prog"] (Except.ok create_ollama_client) wFetch
      wComplete).events.length = (resolve_urls ["prog"]).length ∧
    (main_run ["prog"] (Except.ok create_ollama_client) wFetch
      wComplete).events.countP OutputEvent.isErr = 1 ∧
    (main_run ["prog"] (Except.ok create_ollama_client) wFetch
      wComplete).events[1]? =
      some (OutputEvent.urlError "https://anthropic.com"
        (PyError.fetchError "boom")) :=
  C2_per_url_failure_isolated ["prog"] create_ollama_client wFetch wComplete
    1 (PyError.fetchError "boom") (by decide) rfl
    (fun i hi hne => by
      have h3 : (resolve_urls ["prog"]).length = 3 := rfl
      match i, hi, hne with
      | 0, hi, hne => exact ⟨"# Summary", rfl⟩
      | 1, hi, hne => exact absurd rfl hne
      | 2, hi, hne => exact ⟨"# Summary", rfl⟩
      | n + 3, hi, hne => exact absurd (h3 ▸ hi) (by omega))

/-- C10: summarize_website indexes choices[0] without a guard: when the
response holds at least one choice it returns that first choice message
content, and when it holds zero choices it raises the IndexError, which
the main loop turns into a per-URL error event while the run still exits
with code 0. -/
theorem C10_unguarded_first_choice (prog url content : String)
    (fetch : Fetcher) (complete : Completer) (cc : ClientConfig)
    (response : ChatResponse)
    (hf : fetch url = Except.ok content)
    (hc : complete MODEL (create_messages content) = Except.ok response) :
    (∀ c cs, response.choices = c :: cs →
      summarize_website url fetch complete = Except.ok c.message.content) ∧
    (response.choices = [] →
      summarize_website url fetch complete =
        Except.error PyError.indexError ∧
      (main_run [prog, url] (Except.ok cc) fetch complete).exitCode = 0 ∧
      (main_run [prog, url] (Except.ok cc) fetch complete).events =
        [OutputEvent.urlError url PyError.indexError]) := by
  constructor
  · intro c cs hch
    simp [summarize_website, hf, hc, hch]
  · intro hch
    have hs : summarize_website url fetch complete =
        Except.error PyError.indexError := by
      simp [summarize_website, hf, hc, hch]
    refine ⟨hs, rfl, ?_⟩
    have hr : resolve_urls [prog, url] = [url] := rfl
    simp [main_run, run_loop, hr, process_url, hs]

/-- Witness for C10: a completion call answering with zero choices turns
into the IndexError and a per-URL error event, exit code 0. -/
theorem C10_unguarded_first_choice_witness :
    summarize_website "https://example.com" wFetch wcEmpty =
      Except.error PyError.indexError ∧
    (main_run ["prog", "https://example.com"]
      (Except.ok create_ollama_client) wFetch wcEmpty).exitCode = 0 ∧
    (main_run ["prog", "https://example.com"]
      (Except.ok create_ollama_client) wFetch wcEmpty).events =
      [OutputEvent.urlError "https://example.com" PyError.indexError] :=
  (C10_unguarded_first_choice "prog" "https://example.com" "Hello world"
    wFetch wcEmpty create_ollama_client ⟨[]⟩ rfl rfl).2 rfl
